import Mathlib

/-!
Verification of the client-side orchestration state machine of the
videos-con-IA front end (src/index.tsx) against its design specification.

The TypeScript source is shallowly embedded below.  JavaScript strings are
Lean Strings; the JavaScript String.split(sep) with a one-character
separator is embedded as jsSplit; DOM state (visibility classes, the
disabled flag of the action button, the children of the result container)
is carried explicitly in an AppState record; the remote Gemini service is
an environment parameter (the response for the edit call, the scripted
sequence of operation statuses for the video call); asynchronous waits are
recorded as a list of wait durations in milliseconds.
-/

namespace VideosConIA

/-- Accumulator for character-level splitting: splitAux returns the first
segment of the list up to the first separator, together with the remaining
segments.  This embeds the behaviour of JavaScript String.split with a
single-character separator. -/
def splitAux (sep : Char) : List Char → List Char × List (List Char)
  | [] => ([], [])
  | c :: rest =>
    if c = sep then ([], (splitAux sep rest).1 :: (splitAux sep rest).2)
    else (c :: (splitAux sep rest).1, (splitAux sep rest).2)

/-- All segments of a character list split at a separator; always returns a
nonempty list, like JavaScript String.split. -/
def splitOnChar (sep : Char) (l : List Char) : List (List Char) :=
  (splitAux sep l).1 :: (splitAux sep l).2

/-- Embedding of the JavaScript expression s.split(sep) for a
one-character separator sep. -/
def jsSplit (sep : Char) (s : String) : List String :=
  (splitOnChar sep s.data).map String.mk

/-- Number of occurrences of a character in a string. -/
def charOccs (c : Char) (s : String) : Nat :=
  s.data.countP (fun x => x == c)

/-- JavaScript truthiness of a value of type string or null/undefined:
null/undefined and the empty string are falsy. -/
def jsTruthy : Option String → Bool
  | some t => t != ""
  | none => false

/-- The two operation modes tracked in the variable currentMode. -/
inductive Mode where
  | edit
  | video
deriving DecidableEq, Repr

/-- A child element of the result container (or of the upload preview):
each constructor corresponds to one kind of DOM node the code creates. -/
inductive RenderedElem where
  | imgElem (src : String) (alt : String)
  | modelTextElem (t : String)
  | errorTextElem (t : String)
  | loaderElem
  | loaderTextElem (t : String)
  | videoElem (src : String)
deriving DecidableEq, Repr

/-- The mutable state of the page: the module-level variables of
src/index.tsx (imageBase64, imageMimeType, resultUrl, currentMode,
loadingInterval) together with the DOM state the handlers read and write.
activeTimers is the set of interval timers currently registered with the
browser, and nextTimerId the id the next setInterval call returns
(browser timer ids are positive). -/
structure AppState where
  imageBase64 : Option String
  imageMimeType : Option String
  resultUrl : Option String
  currentMode : Mode
  loadingInterval : Option Nat
  activeTimers : List Nat
  nextTimerId : Nat
  downloadHidden : Bool
  actionDisabled : Bool
  loaderHidden : Bool
  resultContent : List RenderedElem
  resultPlaceholderHidden : Bool
  originalImageSrc : Option String
  originalImageVisible : Bool
  uploadPlaceholderHidden : Bool
  promptValue : String
deriving DecidableEq, Repr

/-- Initial state of the page: no image uploaded, edit mode, the preset
prompt installed at startup, download affordance hidden and the action
trigger disabled until an upload succeeds. -/
def initState : AppState where
  imageBase64 := none
  imageMimeType := none
  resultUrl := none
  currentMode := Mode.edit
  loadingInterval := none
  activeTimers := []
  nextTimerId := 1
  downloadHidden := true
  actionDisabled := true
  loaderHidden := true
  resultContent := []
  resultPlaceholderHidden := false
  originalImageSrc := none
  originalImageVisible := false
  uploadPlaceholderHidden := false
  promptValue := "modifica la imagen y dale un aspecto profesional, donde los colores destaquen y resalten lo mejor de la fotografia"

/-- The guard clearing the rotation timer at the top of setLoading
(src/index.tsx lines 250-253): clearInterval only fires when
loadingInterval is truthy, that is, a nonzero number. -/
def clearRotationTimer (s : AppState) : AppState :=
  match s.loadingInterval with
  | some id =>
    if id ≠ 0 then
      { s with activeTimers := s.activeTimers.erase id, loadingInterval := none }
    else s
  | none => s

/-- Embedding of setLoading (src/index.tsx lines 249-273).  After the timer
guard, on isLoading the result container is replaced by the loader (plus a
loader text paragraph when the message is truthy), the download button is
hidden, resultUrl is nulled and the action button disabled; otherwise the
loader is hidden and the action button re-enabled. -/
def setLoading (s : AppState) (isLoading : Bool) (message : Option String) : AppState :=
  let s := clearRotationTimer s
  if isLoading then
    { s with
      resultContent :=
        RenderedElem.loaderElem ::
          (if jsTruthy message then [RenderedElem.loaderTextElem (message.getD "")] else []),
      downloadHidden := true,
      resultUrl := none,
      loaderHidden := false,
      actionDisabled := true }
  else
    { s with loaderHidden := true, actionDisabled := false }

/-- Embedding of displayError (src/index.tsx lines 275-282): the result
container is replaced by one error paragraph and the download button is
hidden. -/
def displayError (s : AppState) (message : String) : AppState :=
  { s with
    resultContent := [RenderedElem.errorTextElem message],
    downloadHidden := true }

/-- Embedding of the reader.onload callback of the upload listener
(src/index.tsx lines 67-82).  The data URL is split at commas; unless there
are exactly two segments the callback throws.  Reading the MIME type
evaluates dataUrlParts[0].split(':')[1].split(';')[0]; when the header has
no colon, split(':')[1] is undefined and calling split on it throws a
TypeError.  On success the module state and the upload preview are
updated. -/
def readerOnload (s : AppState) (result : String) : Except String AppState :=
  let dataUrlParts := jsSplit ',' result
  if dataUrlParts.length ≠ 2 then
    Except.error "Invalid data URL format"
  else
    match (jsSplit ':' (dataUrlParts.headD "")).get? 1 with
    | none => Except.error "TypeError: undefined has no method split"
    | some seg =>
      let mimeTypePart := (jsSplit ';' seg).headD ""
      Except.ok
        { s with
          imageBase64 := some (dataUrlParts.getD 1 ""),
          imageMimeType := some mimeTypePart,
          originalImageSrc := some result,
          originalImageVisible := true,
          uploadPlaceholderHidden := true,
          actionDisabled := false }

/-- Outcome of one upload 'change' event: the resulting state, whether the
catch-block alert was shown, and whether an exception escaped uncaught. -/
structure UploadOutcome where
  state : AppState
  alertShown : Bool
  uncaught : Bool
deriving DecidableEq, Repr

/-- Embedding of the imageUpload 'change' listener (src/index.tsx lines
59-88) for a selected file whose FileReader result is dataUrl.  The
try/catch spans only the synchronous body: constructing the FileReader,
assigning reader.onload and calling readAsDataURL, none of which throws.
The onload callback runs later from the event loop, outside the try, so an
exception it throws is uncaught by this listener and the alert in the catch
block is not reached. -/
def uploadChangeCycle (s : AppState) (dataUrl : String) : UploadOutcome :=
  match readerOnload s dataUrl with
  | Except.ok s' => { state := s', alertShown := false, uncaught := false }
  | Except.error _ => { state := s, alertShown := false, uncaught := true }

/-- An inlineData field of a response part: base64 payload and MIME type. -/
structure InlineData where
  data : String
  mimeType : String
deriving DecidableEq, Repr

/-- One part of a generation response: it may carry inline binary data, a
text, both, or neither. -/
structure GenPart where
  inlineData : Option InlineData
  text : Option String
deriving DecidableEq, Repr

/-- One response candidate; only its content.parts list is consumed. -/
structure Candidate where
  parts : List GenPart
deriving DecidableEq, Repr

/-- A generateContent response: the candidates array may be absent. -/
structure EditResponse where
  candidates : Option (List Candidate)
deriving DecidableEq, Repr

/-- The data URL the edit path builds from an inline part:
data:{mimeType};base64,{data}. -/
def dataUrlOf (d : InlineData) : String :=
  "data:" ++ d.mimeType ++ ";base64," ++ d.data

/-- Embedding of one iteration of the for-of loop over response parts
(src/index.tsx lines 151-169), acting on the pair of the current state and
the foundContent flag.  An inline part appends an image, sets resultUrl and
reveals the download button; a truthy text part appends an annotation
paragraph; any other part is skipped. -/
def renderPart (prompt : String) (acc : AppState × Bool) (p : GenPart) : AppState × Bool :=
  match p.inlineData with
  | some d =>
    ({ acc.1 with
        resultContent := acc.1.resultContent ++ [RenderedElem.imgElem (dataUrlOf d) prompt],
        resultUrl := some (dataUrlOf d),
        downloadHidden := false }, true)
  | none =>
    if jsTruthy p.text then
      ({ acc.1 with
          resultContent := acc.1.resultContent ++ [RenderedElem.modelTextElem (p.text.getD "")] },
        acc.2 || true)
    else acc

/-- Embedding of editImageWithGemini (src/index.tsx lines 128-183).  The
remote generateContent call is the environment parameter: ok carries the
response, error a transport exception.  setLoading true runs first; on a
response the container is cleared and the first candidate's parts are
rendered; an empty candidates array or no rendered content reaches
displayError with the corresponding Spanish message; an exception reaches
the catch with the generic edit message; the finally clause always runs
setLoading false.  The body handling a received response (src/index.tsx
lines 149-175), acting on the state whose result container was just
cleared, is split out as editResponseState. -/
def editResponseState (sc : AppState) (prompt : String) (resp : EditResponse) : AppState :=
  match resp.candidates with
  | some cands =>
    if 0 < cands.length then
      if ((cands.headD { parts := [] }).parts.foldl (renderPart prompt) (sc, false)).2 then
        ((cands.headD { parts := [] }).parts.foldl (renderPart prompt) (sc, false)).1
      else
        displayError ((cands.headD { parts := [] }).parts.foldl (renderPart prompt) (sc, false)).1
          "El modelo no devolvió ningún contenido."
    else displayError sc "No hubo respuesta del modelo. Por favor, inténtalo de nuevo."
  | none => displayError sc "No hubo respuesta del modelo. Por favor, inténtalo de nuevo."

def editImageWithGemini (s : AppState) (prompt : String)
    (outcome : Except Unit EditResponse) : AppState :=
  setLoading
    (match outcome with
     | Except.error _ =>
       displayError (setLoading s true none)
         "Ocurrió un error en la edición. Por favor, revisa la consola."
     | Except.ok resp =>
       editResponseState { setLoading s true none with resultContent := [] } prompt resp)
    false none

/-- The rotating status messages of the video loading indicator. -/
def loadingMessages : List String :=
  ["Iniciando la generación de video...",
   "El modelo está imaginando tu escena...",
   "Renderizando los fotogramas (esto puede tardar unos minutos)...",
   "Aplicando los toques finales...",
   "Casi listo, ¡la espera valdrá la pena!"]

/-- Start of the video loading cycle (src/index.tsx lines 194-202):
setLoading true with the first status message, then window.setInterval
registers the rotation timer and its id is stored in loadingInterval. -/
def startVideoLoading (s : AppState) : AppState :=
  let s1 := setLoading s true (some (loadingMessages.headD ""))
  { s1 with
    loadingInterval := some s1.nextTimerId,
    activeTimers := s1.nextTimerId :: s1.activeTimers,
    nextTimerId := s1.nextTimerId + 1 }

/-- One remote video operation status: the done flag and, through
response.generatedVideos[0].video.uri, the optional retrieval locator. -/
structure VideoOp where
  done : Bool
  uri : Option String
deriving DecidableEq, Repr

/-- Environment for one generateVideoWithGemini run: the outcome of the
generateVideos submission, the successive statuses returned by
getVideosOperation, whether the authenticated fetch of the video bytes
succeeds, and the object URL createObjectURL returns for the blob. -/
structure VideoEnv where
  submit : Except Unit VideoOp
  polls : List VideoOp
  fetchOk : Bool
  blobUrl : String
deriving Repr

/-- Embedding of the polling loop (src/index.tsx lines 213-216): while the
operation is not done, wait 10000 ms and re-query.  Each iteration appends
its wait duration; the loop returns the final operation and the recorded
waits, or none when the scripted statuses run out, which models the
unbounded loop still running. -/
def pollLoop (op : VideoOp) (polls : List VideoOp) (waits : List Nat) :
    Option (VideoOp × List Nat) :=
  if op.done then some (op, waits)
  else
    match polls with
    | [] => none
    | p :: rest => pollLoop p rest (waits ++ [10000])

/-- Embedding of generateVideoWithGemini (src/index.tsx lines 186-247).
The loading cycle starts with the rotating status timer; a submission
exception reaches the catch with the generic video message; otherwise the
loop polls until done; a truthy download locator leads to the fetch, whose
success renders the video element, stores the blob URL and reveals the
download button, and whose failure reaches the catch; a missing locator
reaches displayError; the finally clause always runs setLoading false.
Returns the final state and the list of wait durations, or none when the
polling loop does not terminate within the scripted environment. -/
def generateVideoWithGemini (s : AppState) (prompt : String) (env : VideoEnv) :
    Option (AppState × List Nat) :=
  match env.submit with
  | Except.error _ =>
    some (setLoading
      (displayError (startVideoLoading s)
        "Ocurrió un error en la generación del video. Por favor, revisa la consola.")
      false none, [])
  | Except.ok op0 =>
    match pollLoop op0 env.polls [] with
    | none => none
    | some (opF, waits) =>
      if jsTruthy opF.uri then
        if env.fetchOk then
          some (setLoading
            { startVideoLoading s with
              resultContent := [RenderedElem.videoElem env.blobUrl],
              resultUrl := some env.blobUrl,
              downloadHidden := false }
            false none, waits)
        else
          some (setLoading
            (displayError (startVideoLoading s)
              "Ocurrió un error en la generación del video. Por favor, revisa la consola.")
            false none, waits)
      else
        some (setLoading
          (displayError (startVideoLoading s) "No se pudo generar el video. Inténtalo de nuevo.")
          false none, waits)

/-- Embedding of the actionButton 'click' listener (src/index.tsx lines
91-110): falsy imageBase64 or imageMimeType alerts and returns; a prompt
that trims to empty alerts and returns; otherwise the result placeholder
is hidden and the mode-appropriate remote routine runs.  Returns the final
state, whether a pre-flight alert was shown, and whether a remote call was
issued; none models a video polling loop that has not terminated. -/
def actionClick (s : AppState) (edEnv : Except Unit EditResponse) (vEnv : VideoEnv) :
    Option (AppState × Bool × Bool) :=
  if ¬ jsTruthy s.imageBase64 ∨ ¬ jsTruthy s.imageMimeType then
    some (s, true, false)
  else if s.promptValue.trim = "" then
    some (s, true, false)
  else
    match s.currentMode with
    | Mode.edit =>
      some (editImageWithGemini { s with resultPlaceholderHidden := true } s.promptValue edEnv,
        false, true)
    | Mode.video =>
      (generateVideoWithGemini { s with resultPlaceholderHidden := true } s.promptValue vEnv).map
        (fun r => (r.1, false, true))

/-! Specification-side definitions.  These follow the wording of the
specification, to be compared with the stored values the embedding
computes. -/

/-- The substring of a string after the first occurrence of a separator
character (empty when the separator does not occur). -/
def afterFirst (sep : Char) (s : String) : String :=
  String.mk ((s.data.dropWhile (fun x => x != sep)).drop 1)

/-- The substring of a string before the first occurrence of a separator
character (the whole string when the separator does not occur). -/
def beforeFirst (sep : Char) (s : String) : String :=
  String.mk (s.data.takeWhile (fun x => x != sep))

/-- The data-URL header: everything before the first comma. -/
def headerOf (u : String) : String :=
  beforeFirst ',' u

/-- The substring of a data-URL header between the first colon and the
following semicolon, which the specification names as the MIME type. -/
def headerMime (header : String) : String :=
  beforeFirst ';' (afterFirst ':' header)

/-- Whether a response part is renderable: it carries inline data or a
truthy text. -/
def renderable (p : GenPart) : Bool :=
  p.inlineData.isSome || jsTruthy p.text

/-- The element the specification expects for one response part: an image
per inline-binary part, an annotation paragraph per truthy text part. -/
def specRender (prompt : String) (p : GenPart) : Option RenderedElem :=
  match p.inlineData with
  | some d => some (RenderedElem.imgElem (dataUrlOf d) prompt)
  | none =>
    if jsTruthy p.text then some (RenderedElem.modelTextElem (p.text.getD "")) else none

/-- The data URL of the last inline-binary part of a part list, if any. -/
def lastInlineUrl : List GenPart → Option String
  | [] => none
  | p :: rest =>
    match lastInlineUrl rest with
    | some u => some u
    | none => p.inlineData.map dataUrlOf

/-- Whether a part list contains an inline-binary part. -/
def anyInline (ps : List GenPart) : Bool :=
  ps.any (fun p => p.inlineData.isSome)

/-- The timer invariant: the rotation timer tracked in loadingInterval is
the only interval timer registered with the browser, its id is a positive
number below the id counter, and the counter is positive. -/
def timerOk (s : AppState) : Prop :=
  0 < s.nextTimerId ∧
    match s.loadingInterval with
    | some id => s.activeTimers = [id] ∧ 0 < id ∧ id < s.nextTimerId
    | none => s.activeTimers = []

/-! Basic lemmas about the embedded string splitting. -/

theorem data_append (a b : String) : (a ++ b).data = a.data ++ b.data := rfl

theorem mk_data (s : String) : String.mk s.data = s := rfl

theorem splitAux_of_not_mem (sep : Char) (l : List Char) (h : sep ∉ l) :
    splitAux sep l = (l, []) := by
  induction l with
  | nil => rfl
  | cons c rest ih =>
    simp only [List.mem_cons, not_or] at h
    simp [splitAux, ih h.2, Ne.symm h.1]

theorem splitAux_append (sep : Char) (l₁ l₂ : List Char) (h : sep ∉ l₁) :
    splitAux sep (l₁ ++ sep :: l₂) = (l₁, (splitAux sep l₂).1 :: (splitAux sep l₂).2) := by
  induction l₁ with
  | nil => simp [splitAux]
  | cons c rest ih =>
    simp only [List.mem_cons, not_or] at h
    simp [splitAux, ih h.2, Ne.symm h.1]

theorem splitOnChar_two (sep : Char) (l₁ l₂ : List Char) (h₁ : sep ∉ l₁) (h₂ : sep ∉ l₂) :
    splitOnChar sep (l₁ ++ sep :: l₂) = [l₁, l₂] := by
  unfold splitOnChar
  rw [splitAux_append sep l₁ l₂ h₁, splitAux_of_not_mem sep l₂ h₂]

theorem splitAux_snd_length (sep : Char) (l : List Char) :
    (splitAux sep l).2.length = l.countP (fun x => x == sep) := by
  induction l with
  | nil => rfl
  | cons c rest ih =>
    by_cases hc : c = sep <;> simp [splitAux, hc, List.countP_cons, ih]

theorem jsSplit_length (sep : Char) (s : String) :
    (jsSplit sep s).length = charOccs sep s + 1 := by
  simp [jsSplit, splitOnChar, charOccs, splitAux_snd_length]

theorem dropWhile_append_sep (sep : Char) (l₁ l₂ : List Char) (h : sep ∉ l₁) :
    (l₁ ++ sep :: l₂).dropWhile (fun x => x != sep) = sep :: l₂ := by
  induction l₁ with
  | nil => simp [List.dropWhile]
  | cons c rest ih =>
    simp only [List.mem_cons, not_or] at h
    have hc : (c != sep) = true := bne_iff_ne.mpr (fun hh => h.1 hh.symm)
    simp [List.dropWhile, hc, ih h.2]

theorem takeWhile_append_sep (sep : Char) (l₁ l₂ : List Char) (h : sep ∉ l₁) :
    (l₁ ++ sep :: l₂).takeWhile (fun x => x != sep) = l₁ := by
  induction l₁ with
  | nil => simp [List.takeWhile]
  | cons c rest ih =>
    simp only [List.mem_cons, not_or] at h
    have hc : (c != sep) = true := bne_iff_ne.mpr (fun hh => h.1 hh.symm)
    simp [List.takeWhile, hc, ih h.2]

theorem afterFirst_eq (sep : Char) (l₁ l₂ : List Char) (h : sep ∉ l₁) :
    afterFirst sep (String.mk (l₁ ++ sep :: l₂)) = String.mk l₂ := by
  simp [afterFirst, dropWhile_append_sep sep l₁ l₂ h]

theorem beforeFirst_eq (sep : Char) (l₁ l₂ : List Char) (h : sep ∉ l₁) :
    beforeFirst sep (String.mk (l₁ ++ sep :: l₂)) = String.mk l₁ := by
  simp [beforeFirst, takeWhile_append_sep sep l₁ l₂ h]

/-! Field-projection lemmas for the state-mutating helpers. -/

theorem clearRotationTimer_fields (s : AppState) :
    (clearRotationTimer s).resultContent = s.resultContent ∧
    (clearRotationTimer s).downloadHidden = s.downloadHidden ∧
    (clearRotationTimer s).resultUrl = s.resultUrl ∧
    (clearRotationTimer s).loaderHidden = s.loaderHidden ∧
    (clearRotationTimer s).actionDisabled = s.actionDisabled ∧
    (clearRotationTimer s).nextTimerId = s.nextTimerId := by
  unfold clearRotationTimer
  cases s.loadingInterval with
  | none => simp
  | some id => by_cases h : id ≠ 0 <;> simp [h]

theorem setLoading_false_eq (s : AppState) (m : Option String) :
    setLoading s false m =
      { clearRotationTimer s with loaderHidden := true, actionDisabled := false } := rfl

theorem setLoading_true_eq (s : AppState) (m : Option String) :
    setLoading s true m =
      { clearRotationTimer s with
        resultContent :=
          RenderedElem.loaderElem ::
            (if jsTruthy m then [RenderedElem.loaderTextElem (m.getD "")] else []),
        downloadHidden := true,
        resultUrl := none,
        loaderHidden := false,
        actionDisabled := true } := rfl

theorem setLoading_false_fields (s : AppState) (m : Option String) :
    (setLoading s false m).resultContent = s.resultContent ∧
    (setLoading s false m).downloadHidden = s.downloadHidden ∧
    (setLoading s false m).resultUrl = s.resultUrl ∧
    (setLoading s false m).loaderHidden = true ∧
    (setLoading s false m).actionDisabled = false := by
  have h := clearRotationTimer_fields s
  rw [setLoading_false_eq]
  exact ⟨h.1, h.2.1, h.2.2.1, rfl, rfl⟩

theorem setLoading_true_fields (s : AppState) (m : Option String) :
    (setLoading s true m).resultContent =
      RenderedElem.loaderElem ::
        (if jsTruthy m then [RenderedElem.loaderTextElem (m.getD "")] else []) ∧
    (setLoading s true m).downloadHidden = true ∧
    (setLoading s true m).resultUrl = none ∧
    (setLoading s true m).loaderHidden = false ∧
    (setLoading s true m).actionDisabled = true ∧
    (setLoading s true m).nextTimerId = s.nextTimerId := by
  have h := clearRotationTimer_fields s
  rw [setLoading_true_eq]
  exact ⟨rfl, rfl, rfl, rfl, rfl, h.2.2.2.2.2⟩

theorem displayError_fields (s : AppState) (msg : String) :
    (displayError s msg).resultContent = [RenderedElem.errorTextElem msg] ∧
    (displayError s msg).downloadHidden = true ∧
    (displayError s msg).resultUrl = s.resultUrl ∧
    (displayError s msg).loaderHidden = s.loaderHidden ∧
    (displayError s msg).actionDisabled = s.actionDisabled ∧
    (displayError s msg).loadingInterval = s.loadingInterval := by
  exact ⟨rfl, rfl, rfl, rfl, rfl, rfl⟩

/-! Characterization of the for-of loop over the response parts. -/

theorem anyInline_eq_isSome (ps : List GenPart) :
    anyInline ps = (lastInlineUrl ps).isSome := by
  induction ps with
  | nil => rfl
  | cons p rest ih =>
    simp only [anyInline, List.any_cons, lastInlineUrl]
    cases hl : lastInlineUrl rest with
    | some u => simp [anyInline] at ih; simp [ih, hl]
    | none =>
      simp [anyInline] at ih
      cases hp : p.inlineData <;> simp [ih, hl, hp]

theorem foldl_renderPart_spec (prompt : String) (ps : List GenPart) :
    ∀ (s : AppState) (b : Bool),
      (ps.foldl (renderPart prompt) (s, b)).1.resultContent
        = s.resultContent ++ ps.filterMap (specRender prompt) ∧
      (ps.foldl (renderPart prompt) (s, b)).1.resultUrl
        = (match lastInlineUrl ps with
           | some u => some u
           | none => s.resultUrl) ∧
      (ps.foldl (renderPart prompt) (s, b)).1.downloadHidden
        = (if anyInline ps then false else s.downloadHidden) ∧
      (ps.foldl (renderPart prompt) (s, b)).2 = (b || ps.any renderable) ∧
      (ps.foldl (renderPart prompt) (s, b)).1.loaderHidden = s.loaderHidden ∧
      (ps.foldl (renderPart prompt) (s, b)).1.actionDisabled = s.actionDisabled ∧
      (ps.foldl (renderPart prompt) (s, b)).1.loadingInterval = s.loadingInterval := by
  induction ps with
  | nil => intro s b; simp [lastInlineUrl, anyInline]
  | cons p rest ih =>
    intro s b
    simp only [List.foldl_cons, List.filterMap_cons, List.any_cons]
    cases hp : p.inlineData with
    | some d =>
      have hr : renderPart prompt (s, b) p =
          ({ s with
              resultContent := s.resultContent ++ [RenderedElem.imgElem (dataUrlOf d) prompt],
              resultUrl := some (dataUrlOf d),
              downloadHidden := false }, true) := by
        simp [renderPart, hp]
      rw [hr]
      have h := ih { s with
          resultContent := s.resultContent ++ [RenderedElem.imgElem (dataUrlOf d) prompt],
          resultUrl := some (dataUrlOf d),
          downloadHidden := false } true
      refine ⟨?_, ?_, ?_, ?_, ?_, ?_, ?_⟩
      · rw [h.1]; simp [specRender, hp]
      · rw [h.2.1]
        cases hl : lastInlineUrl rest <;> simp [lastInlineUrl, hl, hp]
      · rw [h.2.2.1]
        simp [anyInline, hp]
      · rw [h.2.2.2.1]
        simp [renderable, hp]
      · exact h.2.2.2.2.1
      · exact h.2.2.2.2.2.1
      · exact h.2.2.2.2.2.2
    | none =>
      by_cases ht : jsTruthy p.text = true
      · have hr : renderPart prompt (s, b) p =
            ({ s with
                resultContent :=
                  s.resultContent ++ [RenderedElem.modelTextElem (p.text.getD "")] }, b || true) := by
          simp [renderPart, hp, ht]
        rw [hr]
        have h := ih { s with
            resultContent :=
              s.resultContent ++ [RenderedElem.modelTextElem (p.text.getD "")] } (b || true)
        refine ⟨?_, ?_, ?_, ?_, ?_, ?_, ?_⟩
        · rw [h.1]; simp [specRender, hp, ht]
        · rw [h.2.1]
          cases hl : lastInlineUrl rest <;> simp [lastInlineUrl, hl, hp]
        · rw [h.2.2.1]; simp [anyInline, hp]
        · rw [h.2.2.2.1]; simp [renderable, hp, ht]
        · exact h.2.2.2.2.1
        · exact h.2.2.2.2.2.1
        · exact h.2.2.2.2.2.2
      · have hr : renderPart prompt (s, b) p = (s, b) := by
          simp [renderPart, hp, ht]
        rw [hr]
        have h := ih s b
        refine ⟨?_, ?_, ?_, ?_, ?_, ?_, ?_⟩
        · rw [h.1]; simp [specRender, hp, ht]
        · rw [h.2.1]
          cases hl : lastInlineUrl rest <;> simp [lastInlineUrl, hl, hp]
        · rw [h.2.2.1]; simp [anyInline, hp]
        · rw [h.2.2.2.1]; simp [renderable, hp, ht]
        · exact h.2.2.2.2.1
        · exact h.2.2.2.2.2.1
        · exact h.2.2.2.2.2.2

theorem data_mk (l : List Char) : (String.mk l).data = l := rfl

theorem anyInline_imp_any_renderable (ps : List GenPart) (h : anyInline ps = true) :
    ps.any renderable = true := by
  rw [List.any_eq_true]
  rcases List.any_eq_true.mp h with ⟨p, hp, hi⟩
  exact ⟨p, hp, by simp [renderable, hi]⟩

theorem anyInline_false_of_any_renderable_false (ps : List GenPart)
    (h : ps.any renderable = false) : anyInline ps = false := by
  cases ha : anyInline ps with
  | false => rfl
  | true => rw [anyInline_imp_any_renderable ps ha] at h; exact absurd h (by simp)

theorem clearRotationTimer_timers (s : AppState) (h : timerOk s) :
    (clearRotationTimer s).activeTimers = [] ∧
    (clearRotationTimer s).loadingInterval = none ∧
    (clearRotationTimer s).nextTimerId = s.nextTimerId := by
  unfold timerOk at h
  cases hl : s.loadingInterval with
  | none =>
    rw [hl] at h
    simp [clearRotationTimer, hl, h.2]
  | some id =>
    rw [hl] at h
    have hid : id ≠ 0 := Nat.pos_iff_ne_zero.mp h.2.2.1
    simp [clearRotationTimer, hl, hid, h.2.1, List.erase_cons_head]

theorem setLoading_timers (s : AppState) (b : Bool) (m : Option String) (h : timerOk s) :
    (setLoading s b m).activeTimers = [] ∧
    (setLoading s b m).loadingInterval = none ∧
    (setLoading s b m).nextTimerId = s.nextTimerId := by
  have hc := clearRotationTimer_timers s h
  cases b with
  | false => rw [setLoading_false_eq]; exact hc
  | true => rw [setLoading_true_eq]; exact hc

theorem startVideoLoading_timers (s : AppState) (h : timerOk s) :
    (startVideoLoading s).activeTimers = [s.nextTimerId] ∧
    (startVideoLoading s).loadingInterval = some s.nextTimerId ∧
    (startVideoLoading s).nextTimerId = s.nextTimerId + 1 := by
  have hc := setLoading_timers s true (some (loadingMessages.headD "")) h
  unfold startVideoLoading
  refine ⟨?_, ?_, ?_⟩
  · show (setLoading s true (some (loadingMessages.headD ""))).nextTimerId ::
      (setLoading s true (some (loadingMessages.headD ""))).activeTimers = [s.nextTimerId]
    rw [hc.1, hc.2.2]
  · show some (setLoading s true (some (loadingMessages.headD ""))).nextTimerId =
      some s.nextTimerId
    rw [hc.2.2]
  · show (setLoading s true (some (loadingMessages.headD ""))).nextTimerId + 1 =
      s.nextTimerId + 1
    rw [hc.2.2]

theorem timerOk_startVideoLoading (s : AppState) (h : timerOk s) :
    timerOk (startVideoLoading s) := by
  have ht := startVideoLoading_timers s h
  unfold timerOk
  rw [ht.2.1, ht.1, ht.2.2]
  exact ⟨Nat.succ_pos _, rfl, h.1, Nat.lt_succ_self _⟩

theorem startVideoLoading_fields (s : AppState) :
    (startVideoLoading s).resultUrl = none ∧
    (startVideoLoading s).downloadHidden = true ∧
    (startVideoLoading s).loaderHidden = false ∧
    (startVideoLoading s).actionDisabled = true ∧
    (startVideoLoading s).resultContent =
      RenderedElem.loaderElem ::
        (if jsTruthy (some (loadingMessages.headD "")) then
          [RenderedElem.loaderTextElem ((some (loadingMessages.headD "")).getD "")]
        else []) := by
  have hf := setLoading_true_fields s (some (loadingMessages.headD ""))
  unfold startVideoLoading
  exact ⟨hf.2.2.1, hf.2.1, hf.2.2.2.1, hf.2.2.2.2.1, hf.1⟩

/-- C1: the specification claims that for a malformed data URL (missing
comma separator or missing MIME segment) the encoder fails and the failure
is reported to the user via an alert, with no EncodedMedia state changed.
The code does fail and leaves the state untouched, but the throw happens
inside the asynchronous reader.onload callback, outside the try/catch of
the change listener, so the exception is uncaught and the alert in the
catch block is never shown: on a comma-less data URL and on a data URL
whose header has no MIME segment the cycle ends with an uncaught exception,
an unchanged state and no alert, and no execution of the upload cycle ever
shows the alert. -/
theorem C1_malformed_upload_no_alert :
    uploadChangeCycle initState "iVBORw0KGgo" =
      { state := initState, alertShown := false, uncaught := true } ∧
    uploadChangeCycle initState "data,payload" =
      { state := initState, alertShown := false, uncaught := true } ∧
    ∀ (s : AppState) (u : String), (uploadChangeCycle s u).alertShown = false := by
  refine ⟨by decide, by decide, ?_⟩
  intro s u
  unfold uploadChangeCycle
  cases readerOnload s u <;> rfl

theorem C2_decomp (m d : String) (hm1 : ',' ∉ m.data) (hm2 : ':' ∉ m.data)
    (hm3 : ';' ∉ m.data) (hd : ',' ∉ d.data) :
    ("data:" ++ m ++ ";base64," ++ d).data =
      ("data".data ++ ':' :: (m.data ++ ";base64".data)) ++ ',' :: d.data := by
  have h1 : ("data:" : String).data = "data".data ++ [':'] := rfl
  have h2 : (";base64," : String).data = ";base64".data ++ [','] := rfl
  simp [data_append, h1, h2, List.append_assoc]

theorem jsSplit_comma (m d : String) (hm1 : ',' ∉ m.data) (hm2 : ':' ∉ m.data)
    (hm3 : ';' ∉ m.data) (hd : ',' ∉ d.data) :
    jsSplit ',' ("data:" ++ m ++ ";base64," ++ d) =
      [String.mk ("data".data ++ ':' :: (m.data ++ ";base64".data)), d] := by
  unfold jsSplit
  rw [C2_decomp m d hm1 hm2 hm3 hd, splitOnChar_two]
  · simp [mk_data]
  · simp only [List.mem_append, List.mem_cons, not_or]
    refine ⟨by decide, by decide, ?_, by decide⟩
    intro hmem
    exact hm1 hmem
  · exact hd

theorem jsSplit_colon (m : String) (hm2 : ':' ∉ m.data) :
    jsSplit ':' (String.mk ("data".data ++ ':' :: (m.data ++ ";base64".data))) =
      [String.mk "data".data, String.mk (m.data ++ ";base64".data)] := by
  have h2 : ':' ∉ m.data ++ ";base64".data := by
    simp only [List.mem_append, not_or]
    exact ⟨hm2, by decide⟩
  unfold jsSplit
  rw [data_mk, splitOnChar_two ':' _ _ (by decide) h2]
  rfl

theorem jsSplit_semi (m : String) (hm3 : ';' ∉ m.data) :
    jsSplit ';' (String.mk (m.data ++ ";base64".data)) =
      [m, String.mk "base64".data] := by
  unfold jsSplit
  rw [data_mk]
  have hb : m.data ++ (";base64" : String).data = m.data ++ ';' :: "base64".data := rfl
  rw [hb, splitOnChar_two ';' _ _ hm3 (by decide)]
  simp [mk_data]

/-- C2: for every valid uploaded file, that is, a data URL of the shape
the file reader produces, data colon MIME type, semicolon base64 marker,
comma, payload, with the MIME type free of comma, colon and semicolon and
the payload free of commas, the stored EncodedMedia MIME type equals the
substring of the data-URL header between the colon and the semicolon, and
the stored data equals the substring after the first comma of the data
URL. -/
theorem C2_valid_upload_stores_header_fields (s : AppState) (m d : String)
    (hm1 : ',' ∉ m.data) (hm2 : ':' ∉ m.data) (hm3 : ';' ∉ m.data)
    (hd : ',' ∉ d.data) :
    readerOnload s ("data:" ++ m ++ ";base64," ++ d) =
      Except.ok
        { s with
          imageBase64 := some d,
          imageMimeType := some m,
          originalImageSrc := some ("data:" ++ m ++ ";base64," ++ d),
          originalImageVisible := true,
          uploadPlaceholderHidden := true,
          actionDisabled := false } ∧
    headerMime (headerOf ("data:" ++ m ++ ";base64," ++ d)) = m ∧
    afterFirst ',' ("data:" ++ m ++ ";base64," ++ d) = d := by
  have hsplit := jsSplit_comma m d hm1 hm2 hm3 hd
  have hcomma : ',' ∉ "data".data ++ ':' :: (m.data ++ ";base64".data) := by
    simp only [List.mem_append, List.mem_cons, not_or]
    refine ⟨by decide, by decide, ?_, by decide⟩
    intro hmem
    exact hm1 hmem
  refine ⟨?_, ?_, ?_⟩
  · have hcolon : jsSplit ':'
        (String.mk ('d' :: 'a' :: 't' :: 'a' :: ':' ::
          (m.data ++ [';', 'b', 'a', 's', 'e', '6', '4']))) =
        ["data", String.mk (m.data ++ [';', 'b', 'a', 's', 'e', '6', '4'])] :=
      jsSplit_colon m hm2
    have hsemi : jsSplit ';' (String.mk (m.data ++ [';', 'b', 'a', 's', 'e', '6', '4'])) =
        [m, "base64"] :=
      jsSplit_semi m hm3
    unfold readerOnload
    simp [hsplit, hcolon, hsemi, mk_data]
  · unfold headerOf headerMime beforeFirst afterFirst
    rw [C2_decomp m d hm1 hm2 hm3 hd,
      takeWhile_append_sep ',' _ _ hcomma, data_mk]
    have hdd : "data".data ++ ':' :: (m.data ++ ";base64".data) =
        "data".data ++ ':' :: (m.data ++ ';' :: "base64".data) := rfl
    rw [hdd, dropWhile_append_sep ':' _ _ (by decide)]
    simp only [List.drop_succ_cons, List.drop_zero, data_mk]
    rw [takeWhile_append_sep ';' _ _ hm3]
  · unfold afterFirst
    rw [C2_decomp m d hm1 hm2 hm3 hd, dropWhile_append_sep ',' _ _ hcomma]
    simp only [List.drop_succ_cons, List.drop_zero]

/-- Witness for C2 at a concrete valid upload. -/
theorem C2_witness :
    readerOnload initState ("data:" ++ "image/png" ++ ";base64," ++ "iVBORw0KGgo") =
      Except.ok
        { initState with
          imageBase64 := some "iVBORw0KGgo",
          imageMimeType := some "image/png",
          originalImageSrc := some ("data:" ++ "image/png" ++ ";base64," ++ "iVBORw0KGgo"),
          originalImageVisible := true,
          uploadPlaceholderHidden := true,
          actionDisabled := false } ∧
    headerMime (headerOf ("data:" ++ "image/png" ++ ";base64," ++ "iVBORw0KGgo")) = "image/png" ∧
    afterFirst ',' ("data:" ++ "image/png" ++ ";base64," ++ "iVBORw0KGgo") = "iVBORw0KGgo" :=
  C2_valid_upload_stores_header_fields initState "image/png" "iVBORw0KGgo"
    (by decide) (by decide) (by decide) (by decide)

/-- C10: the comma-split must yield exactly two segments, so a data URL
containing two or more commas is rejected as malformed and no EncodedMedia
is stored: acceptance implies exactly one comma, and two or more commas
imply the Invalid-data-URL failure with the upload cycle leaving the state
untouched. -/
theorem C10_exactly_one_comma :
    (∀ (s : AppState) (u : String) (s' : AppState),
      readerOnload s u = Except.ok s' → charOccs ',' u = 1) ∧
    (∀ (s : AppState) (u : String), 2 ≤ charOccs ',' u →
      readerOnload s u = Except.error "Invalid data URL format" ∧
      (uploadChangeCycle s u).state = s ∧
      (uploadChangeCycle s u).uncaught = true) := by
  constructor
  · intro s u s' h
    unfold readerOnload at h
    by_cases hl : (jsSplit ',' u).length ≠ 2
    · rw [if_pos hl] at h
      exact absurd h (by simp)
    · have h2 : (jsSplit ',' u).length = 2 := not_not.mp hl
      rw [jsSplit_length] at h2
      omega
  · intro s u h
    have hl : (jsSplit ',' u).length ≠ 2 := by
      rw [jsSplit_length]
      omega
    have herr : readerOnload s u = Except.error "Invalid data URL format" := by
      unfold readerOnload
      rw [if_pos hl]
    refine ⟨herr, ?_, ?_⟩ <;> (unfold uploadChangeCycle; rw [herr])

/-- Witness for C10: an accepted upload has one comma, and a two-comma
data URL is rejected without a state change. -/
theorem C10_witness :
    charOccs ',' "data:image/png;base64,AAAA" = 1 ∧
    readerOnload initState "a,b,c" = Except.error "Invalid data URL format" ∧
    (uploadChangeCycle initState "a,b,c").state = initState :=
  ⟨C10_exactly_one_comma.1 initState "data:image/png;base64,AAAA" _ rfl,
   (C10_exactly_one_comma.2 initState "a,b,c" (by decide)).1,
   (C10_exactly_one_comma.2 initState "a,b,c" (by decide)).2.1⟩

theorem editResponseState_download_iff (sc : AppState) (p : String) (resp : EditResponse)
    (hh : sc.downloadHidden = true) (hu : sc.resultUrl = none) :
    (editResponseState sc p resp).downloadHidden =
      (editResponseState sc p resp).resultUrl.isNone := by
  unfold editResponseState
  split
  next heq =>
    rename_i cands
    split
    next hlen =>
      have hspec := foldl_renderPart_spec p (cands.headD { parts := [] }).parts sc false
      split
      next hr =>
        rw [hspec.2.2.1, hspec.2.1, anyInline_eq_isSome]
        cases hl : lastInlineUrl (cands.headD { parts := [] }).parts with
        | some u => rfl
        | none => rw [hh, hu]; rfl
      next hr =>
        have hr2 : ((cands.headD { parts := [] }).parts.foldl (renderPart p) (sc, false)).2
            = false := Bool.eq_false_iff.mpr hr
        have hb := hspec.2.2.2.1
        rw [hr2] at hb
        have hany : (cands.headD { parts := [] }).parts.any renderable = false := by
          simpa using hb.symm
        have hni := anyInline_false_of_any_renderable_false _ hany
        rw [anyInline_eq_isSome] at hni
        have hl : lastInlineUrl (cands.headD { parts := [] }).parts = none :=
          Option.not_isSome_iff_eq_none.mp (by rw [hni]; exact Bool.false_ne_true)
        have hf := displayError_fields
          (((cands.headD { parts := [] }).parts.foldl (renderPart p) (sc, false)).1)
          "El modelo no devolvió ningún contenido."
        rw [hf.2.1, hf.2.2.1, hspec.2.1, hl, hu]
        rfl
    next hlen =>
      have hf := displayError_fields sc "No hubo respuesta del modelo. Por favor, inténtalo de nuevo."
      rw [hf.2.1, hf.2.2.1, hu]
      rfl
  next =>
    have hf := displayError_fields sc "No hubo respuesta del modelo. Por favor, inténtalo de nuevo."
    rw [hf.2.1, hf.2.2.1, hu]
    rfl

/-- C3: the download affordance is visible exactly when a downloadable
resource handle is set: the start of every orchestration cycle hides it
and nulls the handle, every error rendering hides it, and at the end of
every edit cycle and every terminating video cycle the download button is
hidden exactly when resultUrl is null, so it is shown exactly when an
image or video result was produced. -/
theorem C3_download_iff_result :
    (∀ (s : AppState) (m : Option String),
      (setLoading s true m).downloadHidden = true ∧ (setLoading s true m).resultUrl = none) ∧
    (∀ (s : AppState) (msg : String), (displayError s msg).downloadHidden = true) ∧
    (∀ (s : AppState) (p : String) (o : Except Unit EditResponse),
      (editImageWithGemini s p o).downloadHidden =
        (editImageWithGemini s p o).resultUrl.isNone) ∧
    (∀ (s : AppState) (p : String) (env : VideoEnv) (s' : AppState) (w : List Nat),
      generateVideoWithGemini s p env = some (s', w) →
        s'.downloadHidden = s'.resultUrl.isNone) := by
  refine ⟨?_, ?_, ?_, ?_⟩
  · intro s m
    exact ⟨(setLoading_true_fields s m).2.1, (setLoading_true_fields s m).2.2.1⟩
  · intro s msg
    exact (displayError_fields s msg).2.1
  · intro s p o
    unfold editImageWithGemini
    cases o with
    | error e =>
      have hsl := setLoading_true_fields s none
      have hde := displayError_fields (setLoading s true none)
        "Ocurrió un error en la edición. Por favor, revisa la consola."
      have hf := setLoading_false_fields (displayError (setLoading s true none)
        "Ocurrió un error en la edición. Por favor, revisa la consola.") none
      rw [hf.2.1, hf.2.2.1, hde.2.1, hde.2.2.1, hsl.2.2.1]
      rfl
    | ok resp =>
      have hsl := setLoading_true_fields s none
      have hiff := editResponseState_download_iff
        { setLoading s true none with resultContent := [] } p resp
        (by rw [show ({ setLoading s true none with resultContent := [] } : AppState).downloadHidden
            = (setLoading s true none).downloadHidden from rfl, hsl.2.1])
        (by rw [show ({ setLoading s true none with resultContent := [] } : AppState).resultUrl
            = (setLoading s true none).resultUrl from rfl, hsl.2.2.1])
      have hf := setLoading_false_fields
        (editResponseState { setLoading s true none with resultContent := [] } p resp) none
      rw [hf.2.1, hf.2.2.1, hiff]
  · intro s p env s' w h
    have hsv := startVideoLoading_fields s
    cases hsub : env.submit with
    | error e =>
      simp only [generateVideoWithGemini, hsub, Option.some.injEq, Prod.mk.injEq] at h
      obtain ⟨h1, h2⟩ := h
      rw [← h1]
      have hde := displayError_fields (startVideoLoading s)
        "Ocurrió un error en la generación del video. Por favor, revisa la consola."
      have hf := setLoading_false_fields (displayError (startVideoLoading s)
        "Ocurrió un error en la generación del video. Por favor, revisa la consola.") none
      rw [hf.2.1, hf.2.2.1, hde.2.1, hde.2.2.1, hsv.1]
      rfl
    | ok op0 =>
      cases hpoll : pollLoop op0 env.polls [] with
      | none => simp [generateVideoWithGemini, hsub, hpoll] at h
      | some r =>
        obtain ⟨opF, waits⟩ := r
        by_cases htr : jsTruthy opF.uri = true
        · by_cases hfetch : env.fetchOk = true
          · simp only [generateVideoWithGemini, hsub, hpoll, htr, hfetch, if_true,
              Option.some.injEq, Prod.mk.injEq] at h
            obtain ⟨h1, h2⟩ := h
            rw [← h1]
            have hf := setLoading_false_fields
              { startVideoLoading s with
                resultContent := [RenderedElem.videoElem env.blobUrl],
                resultUrl := some env.blobUrl,
                downloadHidden := false } none
            rw [hf.2.1, hf.2.2.1]
            rfl
          · have hfetch2 : env.fetchOk = false := Bool.eq_false_iff.mpr hfetch
            simp only [generateVideoWithGemini, hsub, hpoll, htr, hfetch2, if_true,
              Bool.false_eq_true, if_false, Option.some.injEq, Prod.mk.injEq] at h
            obtain ⟨h1, h2⟩ := h
            rw [← h1]
            have hde := displayError_fields (startVideoLoading s)
              "Ocurrió un error en la generación del video. Por favor, revisa la consola."
            have hf := setLoading_false_fields (displayError (startVideoLoading s)
              "Ocurrió un error en la generación del video. Por favor, revisa la consola.") none
            rw [hf.2.1, hf.2.2.1, hde.2.1, hde.2.2.1, hsv.1]
            rfl
        · have htr2 : jsTruthy opF.uri = false := Bool.eq_false_iff.mpr htr
          simp only [generateVideoWithGemini, hsub, hpoll, htr2, Bool.false_eq_true, if_false,
            Option.some.injEq, Prod.mk.injEq] at h
          obtain ⟨h1, h2⟩ := h
          rw [← h1]
          have hde := displayError_fields (startVideoLoading s)
            "No se pudo generar el video. Inténtalo de nuevo."
          have hf := setLoading_false_fields (displayError (startVideoLoading s)
            "No se pudo generar el video. Inténtalo de nuevo.") none
          rw [hf.2.1, hf.2.2.1, hde.2.1, hde.2.2.1, hsv.1]
          rfl

/-- Witness for C3 at a terminating concrete video cycle. -/
theorem C3_witness :
    ((generateVideoWithGemini initState "p"
        { submit := Except.ok { done := true, uri := some "https://video" },
          polls := [], fetchOk := true, blobUrl := "blob:v1" }).getD
      (initState, [])).1.downloadHidden =
    ((generateVideoWithGemini initState "p"
        { submit := Except.ok { done := true, uri := some "https://video" },
          polls := [], fetchOk := true, blobUrl := "blob:v1" }).getD
      (initState, [])).1.resultUrl.isNone :=
  C3_download_iff_result.2.2.2 initState "p"
    { submit := Except.ok { done := true, uri := some "https://video" },
      polls := [], fetchOk := true, blobUrl := "blob:v1" } _ _ (by rfl)

/-- C4: for a video run whose job handle reports done equal to false twice
and then done equal to true with a retrieval locator, the orchestrator
performs exactly two fixed 10000-millisecond waits, each followed by a
status re-query, before fetching the bytes, and ends with the video
rendered and its blob URL stored as the download target. -/
theorem C4_video_two_polls (s : AppState) (p uri burl : String) (huri : uri ≠ "") :
    match generateVideoWithGemini s p
        { submit := Except.ok { done := false, uri := none },
          polls := [{ done := false, uri := none }, { done := true, uri := some uri }],
          fetchOk := true, blobUrl := burl } with
    | some r =>
        r.2 = [10000, 10000] ∧
        r.1.resultContent = [RenderedElem.videoElem burl] ∧
        r.1.resultUrl = some burl ∧
        r.1.downloadHidden = false
    | none => False := by
  have htr : jsTruthy (some uri) = true := by simp [jsTruthy, huri]
  have hpoll : pollLoop { done := false, uri := none }
      [{ done := false, uri := none }, { done := true, uri := some uri }] [] =
      some ({ done := true, uri := some uri }, [10000, 10000]) := rfl
  have hg : generateVideoWithGemini s p
      { submit := Except.ok { done := false, uri := none },
        polls := [{ done := false, uri := none }, { done := true, uri := some uri }],
        fetchOk := true, blobUrl := burl } =
      some (setLoading
        { startVideoLoading s with
          resultContent := [RenderedElem.videoElem burl],
          resultUrl := some burl,
          downloadHidden := false } false none, [10000, 10000]) := by
    simp only [generateVideoWithGemini, hpoll, htr, if_true]
  rw [hg]
  have hf := setLoading_false_fields
    { startVideoLoading s with
      resultContent := [RenderedElem.videoElem burl],
      resultUrl := some burl,
      downloadHidden := false } none
  refine ⟨rfl, ?_, ?_, ?_⟩
  · rw [hf.1]
  · rw [hf.2.2.1]
  · rw [hf.2.1]

/-- Witness for C4 at a concrete scripted job. -/
theorem C4_witness :
    match generateVideoWithGemini initState "p"
        { submit := Except.ok { done := false, uri := none },
          polls := [{ done := false, uri := none },
            { done := true, uri := some "https://dl" }],
          fetchOk := true, blobUrl := "blob:v" } with
    | some r =>
        r.2 = [10000, 10000] ∧
        r.1.resultContent = [RenderedElem.videoElem "blob:v"] ∧
        r.1.resultUrl = some "blob:v" ∧
        r.1.downloadHidden = false
    | none => False :=
  C4_video_two_polls initState "p" "https://dl" "blob:v" (by decide)

/-- C5: an edit response with zero candidates, an empty candidates array,
or candidates whose parts are all unrenderable (no inline data and falsy
text) ends the cycle with the Error-Presenter message as the sole rendered
content and the download affordance hidden. -/
theorem C5_empty_response (s : AppState) (p : String) :
    ((editImageWithGemini s p (Except.ok { candidates := none })).resultContent =
        [RenderedElem.errorTextElem "No hubo respuesta del modelo. Por favor, inténtalo de nuevo."] ∧
      (editImageWithGemini s p (Except.ok { candidates := none })).downloadHidden = true) ∧
    ((editImageWithGemini s p (Except.ok { candidates := some [] })).resultContent =
        [RenderedElem.errorTextElem "No hubo respuesta del modelo. Por favor, inténtalo de nuevo."] ∧
      (editImageWithGemini s p (Except.ok { candidates := some [] })).downloadHidden = true) ∧
    (∀ ps : List GenPart, (∀ q ∈ ps, q.inlineData = none ∧ jsTruthy q.text = false) →
      (editImageWithGemini s p
          (Except.ok { candidates := some [{ parts := ps }] })).resultContent =
        [RenderedElem.errorTextElem "El modelo no devolvió ningún contenido."] ∧
      (editImageWithGemini s p
          (Except.ok { candidates := some [{ parts := ps }] })).downloadHidden = true) := by
  refine ⟨?_, ?_, ?_⟩
  · have hE : editImageWithGemini s p (Except.ok { candidates := none }) =
        setLoading (displayError { setLoading s true none with resultContent := [] }
          "No hubo respuesta del modelo. Por favor, inténtalo de nuevo.") false none := rfl
    have hf := setLoading_false_fields (displayError
      { setLoading s true none with resultContent := [] }
      "No hubo respuesta del modelo. Por favor, inténtalo de nuevo.") none
    have hde := displayError_fields { setLoading s true none with resultContent := [] }
      "No hubo respuesta del modelo. Por favor, inténtalo de nuevo."
    constructor
    · rw [hE, hf.1, hde.1]
    · rw [hE, hf.2.1, hde.2.1]
  · have hE : editImageWithGemini s p (Except.ok { candidates := some [] }) =
        setLoading (displayError { setLoading s true none with resultContent := [] }
          "No hubo respuesta del modelo. Por favor, inténtalo de nuevo.") false none := rfl
    have hf := setLoading_false_fields (displayError
      { setLoading s true none with resultContent := [] }
      "No hubo respuesta del modelo. Por favor, inténtalo de nuevo.") none
    have hde := displayError_fields { setLoading s true none with resultContent := [] }
      "No hubo respuesta del modelo. Por favor, inténtalo de nuevo."
    constructor
    · rw [hE, hf.1, hde.1]
    · rw [hE, hf.2.1, hde.2.1]
  · intro ps h
    have hany : ps.any renderable = false := by
      rw [List.any_eq_false]
      intro q hq
      simp [renderable, (h q hq).1, (h q hq).2]
    have hspec := foldl_renderPart_spec p ps
      { setLoading s true none with resultContent := [] } false
    have hr2 : (ps.foldl (renderPart p)
        ({ setLoading s true none with resultContent := [] }, false)).2 = false := by
      rw [hspec.2.2.2.1, hany, Bool.false_or]
    have hE : editImageWithGemini s p (Except.ok { candidates := some [{ parts := ps }] }) =
        setLoading (editResponseState { setLoading s true none with resultContent := [] } p
          { candidates := some [{ parts := ps }] }) false none := rfl
    have hER : editResponseState { setLoading s true none with resultContent := [] } p
        { candidates := some [{ parts := ps }] } =
        displayError (ps.foldl (renderPart p)
          ({ setLoading s true none with resultContent := [] }, false)).1
          "El modelo no devolvió ningún contenido." := by
      show (if (ps.foldl (renderPart p)
          ({ setLoading s true none with resultContent := [] }, false)).2 = true then
          (ps.foldl (renderPart p)
            ({ setLoading s true none with resultContent := [] }, false)).1
        else
          displayError (ps.foldl (renderPart p)
            ({ setLoading s true none with resultContent := [] }, false)).1
            "El modelo no devolvió ningún contenido.") = _
      rw [if_neg (by rw [hr2]; exact Bool.false_ne_true)]
    have hf := setLoading_false_fields (editResponseState
      { setLoading s true none with resultContent := [] } p
      { candidates := some [{ parts := ps }] }) none
    have hde := displayError_fields (ps.foldl (renderPart p)
      ({ setLoading s true none with resultContent := [] }, false)).1
      "El modelo no devolvió ningún contenido."
    constructor
    · rw [hE, hf.1, hER, hde.1]
    · rw [hE, hf.2.1, hER, hde.2.1]

/-- Witness for C5 at concrete empty and unrenderable responses. -/
theorem C5_witness :
    (editImageWithGemini initState "p" (Except.ok { candidates := none })).resultContent =
      [RenderedElem.errorTextElem "No hubo respuesta del modelo. Por favor, inténtalo de nuevo."] ∧
    (editImageWithGemini initState "p"
        (Except.ok { candidates := some [{ parts := [{ inlineData := none, text := some "" },
          { inlineData := none, text := none }] }] })).resultContent =
      [RenderedElem.errorTextElem "El modelo no devolvió ningún contenido."] :=
  ⟨(C5_empty_response initState "p").1.1,
   ((C5_empty_response initState "p").2.2
     [{ inlineData := none, text := some "" }, { inlineData := none, text := none }]
     (by decide)).1⟩

/-- C6: every exit path of an edit or video cycle hides the busy
indicator and re-enables the action trigger, because the finally clause
runs setLoading false; in particular a transport exception during edit
submission renders only the generic edit failure message, with the loader
hidden and the trigger re-enabled. -/
theorem C6_cleanup_on_every_exit :
    (∀ (s : AppState) (p : String) (o : Except Unit EditResponse),
      (editImageWithGemini s p o).loaderHidden = true ∧
      (editImageWithGemini s p o).actionDisabled = false) ∧
    (∀ (s : AppState) (p : String) (env : VideoEnv) (s' : AppState) (w : List Nat),
      generateVideoWithGemini s p env = some (s', w) →
        s'.loaderHidden = true ∧ s'.actionDisabled = false) ∧
    (∀ (s : AppState) (p : String),
      (editImageWithGemini s p (Except.error ())).resultContent =
        [RenderedElem.errorTextElem
          "Ocurrió un error en la edición. Por favor, revisa la consola."] ∧
      (editImageWithGemini s p (Except.error ())).loaderHidden = true ∧
      (editImageWithGemini s p (Except.error ())).actionDisabled = false) := by
  refine ⟨?_, ?_, ?_⟩
  · intro s p o
    unfold editImageWithGemini
    exact ⟨(setLoading_false_fields _ none).2.2.2.1, (setLoading_false_fields _ none).2.2.2.2⟩
  · intro s p env s' w h
    cases hsub : env.submit with
    | error e =>
      simp only [generateVideoWithGemini, hsub, Option.some.injEq, Prod.mk.injEq] at h
      obtain ⟨h1, h2⟩ := h
      rw [← h1]
      exact ⟨(setLoading_false_fields _ none).2.2.2.1, (setLoading_false_fields _ none).2.2.2.2⟩
    | ok op0 =>
      cases hpoll : pollLoop op0 env.polls [] with
      | none => simp [generateVideoWithGemini, hsub, hpoll] at h
      | some r =>
        obtain ⟨opF, waits⟩ := r
        by_cases htr : jsTruthy opF.uri = true
        · by_cases hfetch : env.fetchOk = true
          · simp only [generateVideoWithGemini, hsub, hpoll, htr, hfetch, if_true,
              Option.some.injEq, Prod.mk.injEq] at h
            obtain ⟨h1, h2⟩ := h
            rw [← h1]
            exact ⟨(setLoading_false_fields _ none).2.2.2.1,
              (setLoading_false_fields _ none).2.2.2.2⟩
          · have hfetch2 : env.fetchOk = false := Bool.eq_false_iff.mpr hfetch
            simp only [generateVideoWithGemini, hsub, hpoll, htr, hfetch2, if_true,
              Bool.false_eq_true, if_false, Option.some.injEq, Prod.mk.injEq] at h
            obtain ⟨h1, h2⟩ := h
            rw [← h1]
            exact ⟨(setLoading_false_fields _ none).2.2.2.1,
              (setLoading_false_fields _ none).2.2.2.2⟩
        · have htr2 : jsTruthy opF.uri = false := Bool.eq_false_iff.mpr htr
          simp only [generateVideoWithGemini, hsub, hpoll, htr2, Bool.false_eq_true, if_false,
            Option.some.injEq, Prod.mk.injEq] at h
          obtain ⟨h1, h2⟩ := h
          rw [← h1]
          exact ⟨(setLoading_false_fields _ none).2.2.2.1,
            (setLoading_false_fields _ none).2.2.2.2⟩
  · intro s p
    have hE : editImageWithGemini s p (Except.error ()) =
        setLoading (displayError (setLoading s true none)
          "Ocurrió un error en la edición. Por favor, revisa la consola.") false none := rfl
    have hf := setLoading_false_fields (displayError (setLoading s true none)
      "Ocurrió un error en la edición. Por favor, revisa la consola.") none
    have hde := displayError_fields (setLoading s true none)
      "Ocurrió un error en la edición. Por favor, revisa la consola."
    refine ⟨?_, ?_, ?_⟩
    · rw [hE, hf.1, hde.1]
    · rw [hE, hf.2.2.2.1]
    · rw [hE, hf.2.2.2.2]

/-- Witness for C6 at a concrete failed video submission. -/
theorem C6_witness :
    ((generateVideoWithGemini initState "p"
        { submit := Except.error (), polls := [], fetchOk := true, blobUrl := "b" }).getD
      (initState, [])).1.loaderHidden = true ∧
    ((generateVideoWithGemini initState "p"
        { submit := Except.error (), polls := [], fetchOk := true, blobUrl := "b" }).getD
      (initState, [])).1.actionDisabled = false :=
  C6_cleanup_on_every_exit.2.1 initState "p"
    { submit := Except.error (), polls := [], fetchOk := true, blobUrl := "b" } _ _ (by rfl)

/-- C7: a click with missing media (falsy stored base64 or MIME type) or a
prompt that trims to the empty string alerts the user, issues no remote
call and leaves the whole state unaltered. -/
theorem C7_preflight_validation (s : AppState) (ed : Except Unit EditResponse)
    (venv : VideoEnv)
    (h : jsTruthy s.imageBase64 = false ∨ jsTruthy s.imageMimeType = false ∨
      s.promptValue.trim = "") :
    actionClick s ed venv = some (s, true, false) := by
  unfold actionClick
  rcases h with h | h | h
  · rw [if_pos (Or.inl (by rw [h]; exact Bool.false_ne_true))]
  · rw [if_pos (Or.inr (by rw [h]; exact Bool.false_ne_true))]
  · by_cases hm : (¬ jsTruthy s.imageBase64 = true ∨ ¬ jsTruthy s.imageMimeType = true)
    · rw [if_pos hm]
    · rw [if_neg hm, if_pos h]

/-- Witness for C7 with no uploaded media. -/
theorem C7_witness :
    actionClick initState (Except.error ())
      { submit := Except.error (), polls := [], fetchOk := true, blobUrl := "b" } =
      some (initState, true, false) :=
  C7_preflight_validation initState (Except.error ())
    { submit := Except.error (), polls := [], fetchOk := true, blobUrl := "b" }
    (Or.inl rfl)

/-- C8: under the timer invariant, starting a video loading cycle first
cancels the active rotation timer, so the invariant is preserved by every
setLoading call and by a loading start, and two starts in a row leave
exactly the most recently registered timer active. -/
theorem C8_single_rotation_timer (s : AppState) (h : timerOk s) :
    timerOk (startVideoLoading s) ∧
    (∀ (b : Bool) (m : Option String), timerOk (setLoading s b m)) ∧
    (startVideoLoading (startVideoLoading s)).activeTimers = [s.nextTimerId + 1] ∧
    (startVideoLoading (startVideoLoading s)).loadingInterval = some (s.nextTimerId + 1) ∧
    s.nextTimerId ∉ (startVideoLoading (startVideoLoading s)).activeTimers := by
  have h1 := timerOk_startVideoLoading s h
  have ht1 := startVideoLoading_timers s h
  have ht2 := startVideoLoading_timers (startVideoLoading s) h1
  refine ⟨h1, ?_, ?_, ?_, ?_⟩
  · intro b m
    have hsl := setLoading_timers s b m h
    unfold timerOk
    rw [hsl.2.1, hsl.1, hsl.2.2]
    exact ⟨h.1, rfl⟩
  · rw [ht2.1, ht1.2.2]
  · rw [ht2.2.1, ht1.2.2]
  · rw [ht2.1, ht1.2.2]
    intro hmem
    simp only [List.mem_singleton] at hmem
    omega

/-- Witness for C8 at the initial state. -/
theorem C8_witness :
    timerOk (startVideoLoading initState) ∧
    (startVideoLoading (startVideoLoading initState)).activeTimers =
      [initState.nextTimerId + 1] :=
  ⟨(C8_single_rotation_timer initState ⟨by decide, rfl⟩).1,
   (C8_single_rotation_timer initState ⟨by decide, rfl⟩).2.2.1⟩

/-- C9: for an edit response whose single candidate has at least one
inline-binary part, every part is rendered in response order, an image per
inline part and an annotation paragraph per truthy text part, and the
stored download target is the data URL of the last inline-binary part. -/
theorem C9_parts_rendered_in_order (s : AppState) (p : String) (ps : List GenPart)
    (h : anyInline ps = true) :
    (editImageWithGemini s p
        (Except.ok { candidates := some [{ parts := ps }] })).resultContent =
      ps.filterMap (specRender p) ∧
    (editImageWithGemini s p
        (Except.ok { candidates := some [{ parts := ps }] })).resultUrl =
      lastInlineUrl ps ∧
    (editImageWithGemini s p
        (Except.ok { candidates := some [{ parts := ps }] })).downloadHidden = false := by
  have hspec := foldl_renderPart_spec p ps
    { setLoading s true none with resultContent := [] } false
  have hr : (ps.foldl (renderPart p)
      ({ setLoading s true none with resultContent := [] }, false)).2 = true := by
    rw [hspec.2.2.2.1, anyInline_imp_any_renderable ps h, Bool.or_true]
  have hE : editImageWithGemini s p (Except.ok { candidates := some [{ parts := ps }] }) =
      setLoading (editResponseState { setLoading s true none with resultContent := [] } p
        { candidates := some [{ parts := ps }] }) false none := rfl
  have hER : editResponseState { setLoading s true none with resultContent := [] } p
      { candidates := some [{ parts := ps }] } =
      (ps.foldl (renderPart p)
        ({ setLoading s true none with resultContent := [] }, false)).1 := by
    show (if (ps.foldl (renderPart p)
        ({ setLoading s true none with resultContent := [] }, false)).2 = true then
        (ps.foldl (renderPart p)
          ({ setLoading s true none with resultContent := [] }, false)).1
      else
        displayError (ps.foldl (renderPart p)
          ({ setLoading s true none with resultContent := [] }, false)).1
          "El modelo no devolvió ningún contenido.") = _
    rw [if_pos hr]
  have hf := setLoading_false_fields (editResponseState
    { setLoading s true none with resultContent := [] } p
    { candidates := some [{ parts := ps }] }) none
  refine ⟨?_, ?_, ?_⟩
  · rw [hE, hf.1, hER, hspec.1,
      show ({ setLoading s true none with resultContent := [] } : AppState).resultContent = []
        from rfl,
      List.nil_append]
  · rw [hE, hf.2.2.1, hER, hspec.2.1]
    cases hl : lastInlineUrl ps with
    | some u => rfl
    | none =>
      rw [anyInline_eq_isSome, hl] at h
      exact absurd h (by decide)
  · rw [hE, hf.2.1, hER, hspec.2.2.1, h, if_pos rfl]

/-- Witness for C9 at a three-part response with two inline images and one
text annotation. -/
theorem C9_witness :
    (editImageWithGemini initState "p"
        (Except.ok { candidates := some [{ parts :=
          [{ inlineData := some { data := "AA", mimeType := "image/png" }, text := none },
           { inlineData := none, text := some "hola" },
           { inlineData := some { data := "BB", mimeType := "image/jpeg" }, text := none }] }] })).resultContent =
      [{ inlineData := some { data := "AA", mimeType := "image/png" }, text := none },
       { inlineData := none, text := some "hola" },
       { inlineData := some { data := "BB", mimeType := "image/jpeg" }, text := none }].filterMap
        (specRender "p") ∧
    (editImageWithGemini initState "p"
        (Except.ok { candidates := some [{ parts :=
          [{ inlineData := some { data := "AA", mimeType := "image/png" }, text := none },
           { inlineData := none, text := some "hola" },
           { inlineData := some { data := "BB", mimeType := "image/jpeg" }, text := none }] }] })).resultUrl =
      lastInlineUrl
        [{ inlineData := some { data := "AA", mimeType := "image/png" }, text := none },
         { inlineData := none, text := some "hola" },
         { inlineData := some { data := "BB", mimeType := "image/jpeg" }, text := none }] := by
  have hw := C9_parts_rendered_in_order initState "p"
    [{ inlineData := some { data := "AA", mimeType := "image/png" }, text := none },
     { inlineData := none, text := some "hola" },
     { inlineData := some { data := "BB", mimeType := "image/jpeg" }, text := none }]
    (by decide)
  exact ⟨hw.1, hw.2.1⟩

end VideosConIA
